import Mathlib

/-!
Verification of the Objective-C binding generator (`objcGen`, package `bind`)
and the generated Go binder stub for `testpkg` (`go_testpkg.go`).

The generator walks a declaration model of a Go package (exported functions
and type names, in scope order) and emits matching caller/callee stubs that
agree on a `(descriptor, code)` address for every callable surface.  The
definitions below embed the code-assignment, type-mapping and
signature-normalization logic of `objcGen` and the behaviour of the stub
code it emits.
-/

namespace Gobind

/-! ### Hexadecimal rendering and parsing

`objcGen.genStructM` emits field and method codes as C hexadecimal literals
built with the printf verb sequence `0x%x0f` / `0x%x1f` / `0x%x0c`: the hex
digits of the index are concatenated with a fixed two-digit suffix.  We model
the hex rendering (`toHex`, the `%x` verb) and the value the C compiler reads
back (`parseHex`). -/

/-- Lower-case hexadecimal digit character for a value below 16 (as Go's
`%x` verb prints it). -/
def hexDigitChar (n : Nat) : Char :=
  if n < 10 then Char.ofNat (48 + n) else Char.ofNat (87 + n)

/-- Hex digit list of a natural number, most significant first, with a
structural fuel argument (the value strictly decreases at every division
by 16, so any fuel above the value suffices). -/
def toHexAux : Nat → Nat → List Char
  | 0, _ => []
  | fuel + 1, n =>
    if n < 16 then [hexDigitChar n]
    else toHexAux fuel (n / 16) ++ [hexDigitChar (n % 16)]

/-- Hex digit list of a natural number, most significant first; the output
of Go's `%x` printf verb. -/
def toHex (n : Nat) : List Char := toHexAux (n + 1) n

/-- Numeric value of one hex digit character. -/
def hexVal (c : Char) : Nat :=
  if c.isDigit then c.toNat - 48 else c.toNat - 87

/-- Accumulator-style hex parser (how a C compiler reads the digits of a
hexadecimal literal). -/
def parseHexAux (acc : Nat) : List Char → Nat
  | [] => acc
  | c :: cs => parseHexAux (acc * 16 + hexVal c) cs

/-- Value of a list of hex digits. -/
def parseHex (cs : List Char) : Nat := parseHexAux 0 cs

/-! ### Struct member codes

`objcGen.genStructM` (lines 404-410) emits, for the i-th exported field, the
literals `0x%x0f` (getter) and `0x%x1f` (setter), and for the i-th exported
method the literal `0x%x0c`.  The value of such a literal is the parse of the
hex digits of `i` followed by the fixed two-digit suffix. -/

/-- Code of the getter for the field at index `i`: value of the emitted C
literal built by the format `0x%x0f` (genStructM line 405). -/
def getterCode (i : Nat) : Nat := parseHex (toHex i ++ ['0', 'f'])

/-- Code of the setter for the field at index `i`: value of the emitted C
literal built by the format `0x%x1f` (genStructM line 406). -/
def setterCode (i : Nat) : Nat := parseHex (toHex i ++ ['1', 'f'])

/-- Code of the method at index `i`: value of the emitted C literal built by
the format `0x%x0c` (genStructM line 409). -/
def methodCode (i : Nat) : Nat := parseHex (toHex i ++ ['0', 'c'])

/-! ### printf modelling

The generator builds all emitted strings with `Printf` format verbs; the
descriptor strings are built with `%s`/`%q`.  A small model of `fmt`
formatting for the verbs the generator uses. -/

/-- One argument to the printf model. -/
inductive FmtArg
  | s (v : String)
  | d (v : Nat)
  | x (v : Nat)
  | q (v : String)

/-- Substitute format verbs `%s`, `%d`, `%x`, `%q` into a character list. -/
def sprintfAux : List Char → List FmtArg → List Char
  | [], _ => []
  | c :: fmt, args =>
    if c = '%' then
      match fmt, args with
      | 's' :: fmt2, FmtArg.s v :: args2 => v.data ++ sprintfAux fmt2 args2
      | 'd' :: fmt2, FmtArg.d v :: args2 => (toString v).data ++ sprintfAux fmt2 args2
      | 'x' :: fmt2, FmtArg.x v :: args2 => toHex v ++ sprintfAux fmt2 args2
      | 'q' :: fmt2, FmtArg.q v :: args2 => '"' :: (v.data ++ '"' :: sprintfAux fmt2 args2)
      | _, _ => c :: fmt
    else c :: sprintfAux fmt args

/-- Model of Go's `fmt.Sprintf` for the verbs used by `objcGen`. -/
def sprintf (fmt : String) (args : List FmtArg) : String :=
  String.mk (sprintfAux fmt.data args)

/-- Model of `capitalize` (the source's helper, lines 30-33): upper-case the first
rune.  Modelled on ASCII characters. -/
def capitalize (n : String) : String :=
  match n.data with
  | [] => ""
  | c :: cs => String.mk (c.toUpper :: cs)

/-! ### The declaration model's types

Shallow embedding of the `go/types` type shapes the generator inspects:
basic kinds, the distinguished `error` type (`isErrorType`), slices,
pointers, named types (with the kind of their underlying type and their
defining package's name) and maps; `otherType` stands for any other shape
(chan, func, ...), which falls into the `default` case of the source's
switches. -/

/-- Model of `types.BasicKind`, restricted to the kinds `objcGen.objcType` matches
on; `otherBasic` is any other basic kind (falls to the switch default). -/
inductive BasicKind
  | bool | int | int8 | int16 | int32 | int64
  | uint8 | uint16 | uint32 | uint64
  | float32 | float64 | string | otherBasic
deriving DecidableEq, Repr

/-- The kind of a named type's underlying type. -/
inductive UnderlyingKind
  | structU
  | interfaceU
  | otherU
deriving DecidableEq, Repr

/-- A `go/types` type, as far as `objcGen` distinguishes them. -/
inductive Typ
  | basic (k : BasicKind)
  | errorType
  | slice (elem : Typ)
  | pointer (elem : Typ)
  | named (pkgName : String) (name : String) (underlying : UnderlyingKind)
  | mapType (key val : Typ)
  | otherType
deriving DecidableEq, Repr

/-- Model of `isErrorType` (helper of the `bind` package): the universe `error`
type. -/
def isErrorType : Typ → Bool
  | .errorType => true
  | _ => false

/-- Whether a type is a named type (`*types.Named`). -/
def Typ.isNamed : Typ → Bool
  | .named _ _ _ => true
  | _ => false

/-- One entry of `objcGen.err` (an `ErrorList`), tagged by the `errorf`
call site that appended it.  The unsupported-type tags carry the offending
type; the normalization tags carry the function's name. -/
inductive Diag
  | unsupportedType (t : Typ)
  | unsupportedPointer (t : Typ)
  | crossPackage (typeName typePkg genPkg : String)
  | unsupportedNamed (t : Typ)
  | tooManyResults (fn : String)
  | resultNotError (fn : String)
deriving DecidableEq, Repr

/-- Whether a diagnostic comes from the type mapper (an `UnsupportedType`
class diagnostic, in the spec's terms) rather than from signature
normalization. -/
def Diag.isUnsupported : Diag → Bool
  | .unsupportedType _ => true
  | .unsupportedPointer _ => true
  | .crossPackage _ _ _ => true
  | .unsupportedNamed _ => true
  | .tooManyResults _ => false
  | .resultNotError _ => false

/-- The fields of `objcGen` that `objcType`, `funcSummary` and the stub
emission read: the package name and the wrapper-class name pfx set by
`objcGen.init` (lines 36-37). -/
structure GenCtx where
  pkgName : String
  namePfx : String
deriving DecidableEq, Repr

/-- Per `objcGen.init` lines 36-37: the wrapper-class name pfx is
`"Go" + capitalize(pkgName)`. -/
def mkGenCtx (pkgName : String) : GenCtx :=
  ⟨pkgName, "Go" ++ capitalize pkgName⟩

/-- Model of `objcGen.objcType` (lines 467-540): maps a source type to its
Objective-C surface type, appending a diagnostic (and answering `"TODO"`)
for every unsupported shape.  The second component is the list of
diagnostics this call appends to `g.err`, in order. -/
def objcType (g : GenCtx) : Typ → String × List Diag
  | .errorType => ("NSError*", [])
  | .basic k =>
    match k with
    | .bool => ("BOOL", [])
    | .int => ("int", [])
    | .int8 => ("int8_t", [])
    | .int16 => ("int16_t", [])
    | .int32 => ("int32_t", [])
    | .int64 => ("int64_t", [])
    | .uint8 => ("byte", [])
    | .uint16 => ("uint16_t", [])
    | .uint32 => ("uint32_t", [])
    | .uint64 => ("uint64_t", [])
    | .float32 => ("float", [])
    | .float64 => ("double", [])
    | .string => ("NSString*", [])
    | .otherBasic => ("TODO", [.unsupportedType (.basic .otherBasic)])
  | .slice elem =>
    let r := objcType g elem
    if r.1 = "byte" then ("NSData*", r.2)
    else ("TODO", r.2 ++ [.unsupportedType (.slice elem)])
  | .pointer elem =>
    match elem with
    | .named p n u =>
      let r := objcType g (.named p n u)
      (r.1 ++ "*", r.2)
    | e => ("TODO", [.unsupportedPointer (.pointer e)])
  | .named p n u =>
    if p ≠ g.pkgName then ("TODO", [.crossPackage n p g.pkgName])
    else
      match u with
      | .interfaceU => (g.namePfx ++ n ++ "*", [])
      | .structU => (g.namePfx ++ n, [])
      | .otherU => ("TODO", [.unsupportedNamed (.named p n u)])
  | .mapType k v => ("TODO", [.unsupportedType (.mapType k v)])
  | .otherType => ("TODO", [.unsupportedType .otherType])

/-! ### Signature normalization (`objcGen.funcSummary`) -/

/-- A `types.Var`: one declared parameter or result (name may be `""` for
an unnamed result). -/
structure Param where
  name : String
  typ : Typ
deriving DecidableEq, Repr

/-- A `types.Func`: an exported function or method with its signature. -/
structure GoFunc where
  name : String
  params : List Param
  results : List Param
deriving DecidableEq, Repr

/-- Modelled from the spec: the reserved synthesized-name pattern the
normalizer treats as absent (the `bind` package's `paramRE`, outside the
provided sources): a `p` followed by one or more digits. -/
def reservedName (s : String) : Bool :=
  match s.data with
  | 'p' :: rest => !rest.isEmpty && rest.all Char.isDigit
  | _ => false

/-- Modelled from the spec: the `paramName` helper (outside the provided
sources) answers the declared name of the i-th parameter, substituting a
synthesized positional name when the declared name is absent or matches
the reserved pattern. -/
def paramName (ps : List Param) (i : Nat) : String :=
  let n := (ps.getD i ⟨"", .otherType⟩).name
  if n = "" || reservedName n then "p" ++ toString i else n

/-- Model of `paramInfo` (lines 158-161). -/
structure ParamInfo where
  typ : Typ
  name : String
deriving DecidableEq, Repr

/-- Model of `funcSummary` (lines 152-156): the normalized calling shape of one
function. -/
structure FuncSummary where
  name : String
  ret : String
  params : List ParamInfo
  retParams : List ParamInfo
deriving DecidableEq, Repr

/-- The result name defaulting of lines 190-192 / 199-201: `ret0_` when the
declared name is empty or matches the reserved pattern. -/
def retName (declared : String) : String :=
  if declared = "" || reservedName declared then "ret0_" else declared

/-- Model of `objcGen.funcSummary` (lines 163-224).  Returns the summary (or `none`
when the declaration is rejected, mirroring the source's `nil`) together
with the diagnostics the call appends to `g.err`. -/
def funcSummaryCore (g : GenCtx) (obj : GoFunc) : Option FuncSummary × List Diag :=
  let params := (List.range obj.params.length).map
    (fun i => ParamInfo.mk (obj.params.getD i ⟨"", .otherType⟩).typ (paramName obj.params i))
  match obj.results with
  | [] => (some ⟨obj.name, "void", params, []⟩, [])
  | [r] =>
    if isErrorType r.typ then
      (some ⟨obj.name, "BOOL", params, [⟨r.typ, "error"⟩]⟩, [])
    else
      let t := objcType g r.typ
      (some ⟨obj.name, t.1, params, [⟨r.typ, retName r.name⟩]⟩, t.2)
  | [r1, r2] =>
    if !isErrorType r2.typ then
      (none, [.resultNotError obj.name])
    else
      (some ⟨obj.name, "BOOL", params, [⟨r1.typ, retName r1.name⟩, ⟨r2.typ, "error"⟩]⟩, [])
  | _ => (none, [.tooManyResults obj.name])

/-- Model of `funcSummary.returnsVal` (lines 260-262): exactly one result parameter
and it is not the error type. -/
def FuncSummary.returnsVal (s : FuncSummary) : Bool :=
  match s.retParams with
  | [p] => !isErrorType p.typ
  | _ => false

/-! ### The declaration model: package scope and `objcGen.init` -/

/-- Exported struct/interface information attached to a `*types.TypeName`:
the declared fields of the underlying struct and the method set of the
pointer type, both in declared (sorted) order. -/
structure TypeNameInfo where
  underlying : UnderlyingKind
  fields : List Param
  methods : List GoFunc
deriving DecidableEq, Repr

/-- One object of the package scope (`scope.Lookup(name)`): a function, a
type name, or any other object kind (consts and vars, which `objcGen.init`
skips). -/
inductive ObjDecl
  | func (f : GoFunc)
  | typeName (name : String) (info : TypeNameInfo)
  | otherObj (name : String)
deriving DecidableEq, Repr

def ObjDecl.name : ObjDecl → String
  | .func f => f.name
  | .typeName n _ => n
  | .otherObj n => n

/-- A `*types.Package`: its name, import path, and scope objects in
`scope.Names()` order (go/types yields that list sorted; the generator
treats the given order as canonical and never re-sorts). -/
structure Package where
  name : String
  path : String
  scope : List ObjDecl
deriving DecidableEq, Repr

/-- Model of `obj.Exported()`: the first character of the name is upper-case
(ASCII model of `unicode.IsUpper` on the first rune). -/
def isExported (s : String) : Bool :=
  match s.data with
  | [] => false
  | c :: _ => c.isUpper

/-- Per `objcGen.init` lines 41-55, the `*types.Func` arm: exported functions,
in scope order. -/
def initFuncs (p : Package) : List GoFunc :=
  p.scope.filterMap fun o =>
    if isExported o.name then
      match o with
      | .func f => some f
      | _ => none
    else none

/-- Per `objcGen.init` lines 41-55, the `*types.TypeName` arm: exported type
names, in scope order. -/
def initNames (p : Package) : List (String × TypeNameInfo) :=
  p.scope.filterMap fun o =>
    if isExported o.name then
      match o with
      | .typeName n info => some (n, info)
      | _ => none
    else none

/-- Modelled from the spec: the `exportedFields` helper (outside the
provided sources) keeps the exported fields of a struct, in declared
order. -/
def exportedFields (info : TypeNameInfo) : List Param :=
  info.fields.filter fun f => isExported f.name

/-- Modelled from the spec: the `exportedMethodSet` helper (outside the
provided sources) keeps the exported methods of the pointer type, in
declared (sorted) order. -/
def exportedMethods (info : TypeNameInfo) : List GoFunc :=
  info.methods.filter fun m => isExported m.name

/-! ### Ordinal code assignment (`objcGen.genM` / `objcGen.genStructM`) -/

/-- A `(descriptor, code)` address together with the name of the emitted
`#define` macro that carries it. -/
structure CallSite where
  descriptor : String
  code : Nat
  surface : String
deriving DecidableEq, Repr

/-- genM lines 122-126: every exported free function receives the
descriptor `%q`-quoted package name and the sequential code `i + 1`. -/
def freeFuncSites (pkgName : String) (funcs : List GoFunc) : List CallSite :=
  (List.range funcs.length).map fun i =>
    ⟨pkgName, i + 1, String.mk (sprintfAux ("_CALL_%s_").data [.s (funcs.getD i ⟨"", [], []⟩).name])⟩

/-- genStructM line 403: the struct descriptor is emitted by the format
`"go.%s.%s"` applied to the package name and the type name. -/
def structDescriptor (pkgName tyName : String) : String :=
  sprintf ("go.%s.%s") [.s pkgName, .s tyName]

/-- genStructM lines 402-410: each exported field (declared order) receives
a getter and a setter code, each exported method one method code, all
scoped to the struct descriptor. -/
def structSites (pkgName tyName : String) (info : TypeNameInfo) : List CallSite :=
  let desc := structDescriptor pkgName tyName
  let pre := String.mk (sprintfAux ("_GO_%s_%s").data [.s pkgName, .s tyName])
  ((List.range (exportedFields info).length).flatMap fun i =>
    let f := (exportedFields info).getD i ⟨"", .otherType⟩
    [⟨desc, getterCode i, pre ++ "_FIELD_" ++ f.name ++ "_GET_"⟩,
     ⟨desc, setterCode i, pre ++ "_FIELD_" ++ f.name ++ "_SET_"⟩])
  ++ (List.range (exportedMethods info).length).map fun i =>
    ⟨desc, methodCode i, pre ++ "_" ++ ((exportedMethods info).getD i ⟨"", [], []⟩).name ++ "_"⟩

/-- All `(descriptor, code)` pairs `genM` assigns for a package: the free
function defines (lines 122-126), then for each exported type name with a
struct underlying, its member defines (`genStructM`; `genInterfaceM` only
logs a TODO and assigns nothing). -/
def genMCallSites (p : Package) : List CallSite :=
  freeFuncSites p.name (initFuncs p)
  ++ (initNames p).flatMap fun ni =>
      match ni.2.underlying with
      | .structU => structSites p.name ni.1 ni.2
      | _ => []

/-! ### Diagnostic accumulation of a `genM` run

`errorf` (lines 463-465) appends to `g.err`; `genM` (lines 146-149) returns
the error list exactly when it is non-empty at the end.  The models below
collect, per declaration, the diagnostics appended by the `objcType` and
`funcSummary` calls that `genM`'s emission makes.  Duplicate `objcType`
calls on one and the same type during body emission (lines 307-352 repeat
the lookups already made while forming the summary) are collected once;
they cannot change whether the list is empty. -/

/-- Diagnostics of `funcSummary.asFunc` / `funcSummary.asMethod`
(lines 226-258): one `objcType` per input parameter and, when the summary
does not return its value directly, one per result parameter. -/
def summarySurfaceDiags (g : GenCtx) (s : FuncSummary) : List Diag :=
  (s.params.flatMap fun p => (objcType g p.typ).2)
  ++ (if s.returnsVal then [] else s.retParams.flatMap fun p => (objcType g p.typ).2)

/-- Diagnostics of emitting one free function (`genFuncM`, lines 279-289):
the `funcSummary` call, then — only when the summary was accepted — the
`objcType` calls of the emitted signature. -/
def genFuncMDiags (g : GenCtx) (f : GoFunc) : List Diag :=
  let r := funcSummaryCore g f
  r.2 ++ (match r.1 with
          | some s => summarySurfaceDiags g s
          | none => [])

/-- Diagnostics of `genStructM` (lines 398-461) for one struct: per
exported field, the getter's result `objcType` (line 428), the getter body
lookup and the setter's parameter lookup; per exported method, the
`funcSummary` call and the emitted signature lookups. -/
def genStructMDiags (g : GenCtx) (info : TypeNameInfo) : List Diag :=
  ((exportedFields info).flatMap fun f =>
    (objcType g f.typ).2 ++ (objcType g f.typ).2 ++ (objcType g f.typ).2)
  ++ (exportedMethods info).flatMap fun m => genFuncMDiags g m

/-- The mutable generator state a `genM` run threads through the emission
loops: the call sites written out so far and the accumulated error list. -/
structure GenState where
  out : List CallSite
  err : List Diag
deriving DecidableEq, Repr

/-- One step of genM's type-name loop (lines 129-138): a struct emits its
member defines and diagnostics, an interface only logs a TODO, any other
underlying kind matches no case. -/
def genMNameStep (g : GenCtx) (pkgName : String) (st : GenState) (ni : String × TypeNameInfo) : GenState :=
  match ni.2.underlying with
  | .structU => ⟨st.out ++ structSites pkgName ni.1 ni.2, st.err ++ genStructMDiags g ni.2⟩
  | .interfaceU => st
  | .otherU => st

/-- A full `genM` emission run (lines 111-145): the free-function defines,
the type-name loop, then the free-function bodies.  Errors accumulate; no
step aborts the run. -/
def genMRun (p : Package) : GenState :=
  let g := mkGenCtx p.name
  let st0 : GenState := ⟨freeFuncSites p.name (initFuncs p), []⟩
  let st1 := (initNames p).foldl (genMNameStep g p.name) st0
  (initFuncs p).foldl (fun st f => ⟨st.out, st.err ++ genFuncMDiags g f⟩) st1

/-- Model of `genM`'s return value (lines 146-149): the accumulated error list when
it is non-empty, otherwise success (carrying the emitted call sites). -/
def genM (p : Package) : Except (List Diag) (List CallSite) :=
  let st := genMRun p
  if st.err.isEmpty then .ok st.out else .error st.err

/-! ### Determinism: the generator value and the order-and-kind skeleton -/

/-- The `objcGen` receiver (lines 17-28) as far as code assignment can see
it: the package plus the run-specific mutable state (`err`; the printer and
file set do not influence what is emitted and are abstracted away). -/
structure ObjcGen where
  pkg : Package
  err : List Diag

/-- The `(descriptor, code)` assignment a run of `genM` on this generator
value produces. -/
def ObjcGen.callSites (g : ObjcGen) : List CallSite :=
  genMCallSites g.pkg

/-- The order-and-kind skeleton of a declaration model: the number of
exported free functions, and for every exported type name (in order) either
its exported field and method counts (struct underlying) or `none`. -/
def skeleton (p : Package) : Nat × List (Option (Nat × Nat)) :=
  ((initFuncs p).length,
   (initNames p).map fun ni =>
     match ni.2.underlying with
     | .structU => some ((exportedFields ni.2).length, (exportedMethods ni.2).length)
     | _ => none)

/-- The code sequence determined by a skeleton alone. -/
def codesOfSkeleton (s : Nat × List (Option (Nat × Nat))) : List Nat :=
  (List.range s.1).map (· + 1)
  ++ s.2.flatMap fun o =>
      match o with
      | some nm =>
        ((List.range nm.1).flatMap fun i => [getterCode i, setterCode i])
        ++ (List.range nm.2).map methodCode
      | none => []

/-! ### The `testpkg` declaration model

Reconstructed from the generated binder stub `go_testpkg.go` (under src):
its proxies record each exported declaration's name, parameters and wire
types, and its `init` functions record the canonical (sorted) order. -/

/-- The struct `testpkg.S`: two exported float64 fields `X`, `Y` and the
exported pointer-receiver methods `Sum` and `TryTwoStrings`. -/
def testpkgS : TypeNameInfo where
  underlying := .structU
  fields := [⟨"X", .basic .float64⟩, ⟨"Y", .basic .float64⟩]
  methods :=
    [⟨"Sum", [], [⟨"", .basic .float64⟩]⟩,
     ⟨"TryTwoStrings", [⟨"first", .basic .string⟩, ⟨"second", .basic .string⟩],
      [⟨"", .basic .string⟩]⟩]

/-- The `testpkg` package scope in `scope.Names()` (sorted) order. -/
def testpkg : Package where
  name := "testpkg"
  path := "golang.org/x/mobile/bind/objc/testpkg"
  scope :=
    [.func ⟨"BytesAppend", [⟨"a", .slice (.basic .uint8)⟩, ⟨"b", .slice (.basic .uint8)⟩],
       [⟨"", .slice (.basic .uint8)⟩]⟩,
     .func ⟨"CallSSum", [⟨"s", .pointer (.named "testpkg" "S" .structU)⟩],
       [⟨"", .basic .float64⟩]⟩,
     .func ⟨"CollectS", [⟨"want", .basic .int⟩, ⟨"timeoutSec", .basic .int⟩],
       [⟨"", .basic .int⟩]⟩,
     .func ⟨"Hello", [⟨"s", .basic .string⟩], [⟨"", .basic .string⟩]⟩,
     .func ⟨"Hi", [], []⟩,
     .func ⟨"Int", [⟨"x", .basic .int32⟩], []⟩,
     .func ⟨"NewS", [⟨"x", .basic .float64⟩, ⟨"y", .basic .float64⟩],
       [⟨"", .pointer (.named "testpkg" "S" .structU)⟩]⟩,
     .func ⟨"ReturnsError", [⟨"b", .basic .bool⟩],
       [⟨"", .basic .string⟩, ⟨"", .errorType⟩]⟩,
     .typeName "S" testpkgS,
     .func ⟨"Sum", [⟨"x", .basic .int64⟩, ⟨"y", .basic .int64⟩], [⟨"", .basic .int64⟩]⟩]

/-- The `(descriptor, code, bound declaration)` triples the Go half
registers for free functions (`go_testpkg.go` lines 135-145). -/
def goTestpkgFreeRegs : List (String × Nat × String) :=
  [("testpkg", 1, "BytesAppend"),
   ("testpkg", 2, "CallSSum"),
   ("testpkg", 3, "CollectS"),
   ("testpkg", 4, "Hello"),
   ("testpkg", 5, "Hi"),
   ("testpkg", 6, "Int"),
   ("testpkg", 7, "NewS"),
   ("testpkg", 8, "ReturnsError"),
   ("testpkg", 9, "Sum")]

/-- The struct descriptor constant of the Go half (`go_testpkg.go`
line 68). -/
def proxyS_Descriptor : String := "go.testpkg.S"

/-- The struct member codes the Go half registers (`go_testpkg.go`
lines 69-74). -/
def goTestpkgStructRegs : List (String × Nat × String) :=
  [(proxyS_Descriptor, 0x00f, "S.X get"),
   (proxyS_Descriptor, 0x01f, "S.X set"),
   (proxyS_Descriptor, 0x10f, "S.Y get"),
   (proxyS_Descriptor, 0x11f, "S.Y set"),
   (proxyS_Descriptor, 0x00c, "S.Sum"),
   (proxyS_Descriptor, 0x10c, "S.TryTwoStrings")]

/-- A package with one exported free function whose result type is
unsupported (a map), used to exercise the diagnostic path. -/
def badpkg : Package where
  name := "badpkg"
  path := "example.com/badpkg"
  scope :=
    [.func ⟨"Lookup", [⟨"k", .basic .string⟩],
       [⟨"", .mapType (.basic .string) (.basic .int)⟩]⟩]

/-! ### Wire values and the generated stub semantics

The emitted caller stubs (`objcGen.genFunc`, lines 291-366) read the
response buffer with one `go_seq_read*` call per result parameter, write
out-parameters under NULL guards, and free both buffers unconditionally.
The callee half writes the response in the same order.  We model a buffer
as the list of values remaining to be read. -/

/-- One decoded wire value: a boolean, a numeric scalar (any fixed-width
integer or float payload), a UTF-8 string, a byte array, or an object
reference handle. -/
inductive WireVal
  | bool (b : Bool)
  | num (n : Int)
  | str (s : String)
  | bytes (bs : List Nat)
  | ref (handle : Nat)
deriving DecidableEq, Repr

/-- The string payload a `go_seq_readUTF8` of this value yields. -/
def WireVal.asStr : WireVal → String
  | .str s => s
  | _ => ""

/-- The handle a `go_seq_readRef` of this value yields. -/
def WireVal.asHandle : WireVal → Nat
  | .ref h => h
  | _ => 0

/-- The boolean a `ReadBool` of this value yields. -/
def WireVal.asBool : WireVal → Bool
  | .bool b => b
  | _ => false

/-- A Go `error` value, observed through its `Error() string` method (the
only way the dispatcher looks at it, `go_testpkg.go` line 63). -/
structure GoError where
  msg : String
deriving DecidableEq, Repr

/-- The string the callee half writes on the failure channel
(`go_testpkg.go` lines 60-64): `""` for a nil error, `err.Error()`
otherwise. -/
def errWireString : Option GoError → String
  | none => ""
  | some e => e.msg

/-- Modelled from the spec: the callee-dispatcher half of a
boolean-success CallSite with one value result (the Go-side emitter is
outside the provided sources; the shape is that of the generated
`proxy_ReturnsError`): the value is always written, then the failure
string. -/
def dispatchBoolSuccess (value : WireVal) (err : Option GoError) : List WireVal :=
  [value, .str (errWireString err)]

/-- Model of `proxy_ReturnsError` (`go_testpkg.go` lines 56-65): decode the bool
argument, call `testpkg.ReturnsError`, write the result string, then write
the failure string. -/
def proxy_ReturnsError (impl : Bool → String × Option GoError) (inBuf : List WireVal) : List WireVal :=
  let b := (inBuf.headD (.bool false)).asBool
  let r := impl b
  dispatchBoolSuccess (.str r.1) r.2

/-- The objc-side wrapper registry (the seq runtime behind
`go_seq_readRef` / `GoSeqRef`, outside the provided sources).  Modelled
from the spec: it maps each live handle to the wrapper already allocated
for it (`GoSeqRef.obj`), and a newly allocated wrapper is bound to its
handle on first crossing.  `fresh` allocates distinct wrapper
identities. -/
structure RefRegistry where
  cache : List (Nat × Nat)
  fresh : Nat
deriving DecidableEq, Repr

/-- The wrapper currently attached to a handle (`ref.obj`; NULL when
absent). -/
def RefRegistry.lookup (r : RefRegistry) (h : Nat) : Option Nat :=
  (r.cache.find? fun e => e.1 == h).map (·.2)

/-- The generated ObjectRef decode (genFunc lines 313-319 and 341-351):
consult `ref.obj`; when non-NULL return it unchanged, otherwise allocate a
wrapper via `initWithRef` — the binding of the new wrapper to the handle
is the registry contract modelled from the spec. -/
def readRefWrapper (r : RefRegistry) (h : Nat) : Nat × RefRegistry :=
  match r.lookup h with
  | some w => (w, r)
  | none => (r.fresh, ⟨(h, r.fresh) :: r.cache, r.fresh + 1⟩)

/-- What a stub stores through an out-parameter pointer. -/
inductive ObjCVal
  | v (w : WireVal)
  | nserror (msg : String)
  | wrapper (id : Nat)
deriving DecidableEq, Repr

/-- The three result-decoding branches of genFunc's out-parameter loop
(lines 322-352): the failure channel, a non-reference value, or an
ObjectRef. -/
inductive RetSlot
  | errorSlot
  | valSlot
  | refSlot
deriving DecidableEq, Repr

/-- The state a caller stub threads while decoding the response buffer:
the unread rest of the buffer, the wrapper registry, the stores performed
through out-parameter pointers (address, value), and the last failure
string read (the local `_error` of lines 324/361). -/
structure StubState where
  buf : List WireVal
  reg : RefRegistry
  writes : List (Nat × ObjCVal)
  errMsg : Option String
deriving DecidableEq, Repr

/-- Pop one value from the response buffer (a `go_seq_read*` call). -/
def StubState.pop (st : StubState) : WireVal × StubState :=
  match st.buf with
  | [] => (.num 0, st)
  | v :: rest => (v, { st with buf := rest })

/-- One iteration of genFunc's out-parameter loop (lines 322-352) for one
result slot and its out-parameter pointer (`none` models a NULL pointer):
  * failure channel (324-331): read the string unconditionally; construct
    and store an `NSError` only when the string is non-empty and the
    pointer is non-NULL;
  * value (333-338): read unconditionally; store under a NULL guard;
  * ObjectRef (340-352): read the handle unconditionally; under a NULL
    guard, store the attached wrapper or allocate one. -/
def execSlot (sl : RetSlot) (ptr : Option Nat) (st : StubState) : StubState :=
  match sl with
  | .errorSlot =>
    let r := st.pop
    let msg := r.1.asStr
    let st1 := { r.2 with errMsg := some msg }
    match ptr with
    | some l =>
      if msg.length ≠ 0 then { st1 with writes := st1.writes ++ [(l, .nserror msg)] }
      else st1
    | none => st1
  | .valSlot =>
    let r := st.pop
    match ptr with
    | some l => { r.2 with writes := r.2.writes ++ [(l, .v r.1)] }
    | none => r.2
  | .refSlot =>
    let r := st.pop
    match ptr with
    | some l =>
      let w := readRefWrapper r.2.reg r.1.asHandle
      { r.2 with reg := w.2, writes := r.2.writes ++ [(l, .wrapper w.1)] }
    | none => r.2

/-- Result of one caller-stub response decode. -/
structure StubResult where
  remaining : List WireVal
  reg : RefRegistry
  writes : List (Nat × ObjCVal)
  freedIn : Bool
  freedOut : Bool
  success : Option Bool
deriving DecidableEq, Repr

/-- The whole out-parameter decode path of a generated caller stub
(genFunc lines 321-365): decode every result slot in order, free both
buffers unconditionally (356-357), and, when the last slot is the failure
channel, return the success flag `[_error length] == 0` (361). -/
def execStubOutParams (slots : List (RetSlot × Option Nat)) (buf : List WireVal)
    (reg : RefRegistry) : StubResult :=
  let st := slots.foldl (fun st s => execSlot s.1 s.2 st) ⟨buf, reg, [], none⟩
  { remaining := st.buf
    reg := st.reg
    writes := st.writes
    freedIn := true
    freedOut := true
    success := st.errMsg.map (·.length == 0) }

/-- The value-returning ObjectRef decode path (genFunc lines 307-320):
read the handle and get-or-create its wrapper; the stub then returns the
wrapper. -/
def execStubReturnRef (buf : List WireVal) (reg : RefRegistry) :
    Nat × List WireVal × RefRegistry :=
  match buf with
  | [] => ((readRefWrapper reg 0).1, [], (readRefWrapper reg 0).2)
  | v :: rest =>
    let w := readRefWrapper reg v.asHandle
    (w.1, rest, w.2)

/-! ## Theorems -/

theorem parseHexAux_append (a : Nat) (xs ys : List Char) :
    parseHexAux a (xs ++ ys) = parseHexAux (parseHexAux a xs) ys := by
  induction xs generalizing a with
  | nil => rfl
  | cons c cs ih => simp [parseHexAux, ih]

theorem parseHexAux_acc (a : Nat) (ys : List Char) :
    parseHexAux a ys = a * 16 ^ ys.length + parseHexAux 0 ys := by
  induction ys generalizing a with
  | nil => simp [parseHexAux]
  | cons c cs ih =>
    rw [parseHexAux, parseHexAux, ih, ih (0 * 16 + hexVal c)]
    simp [List.length_cons, pow_succ]
    ring

theorem parseHex_append (xs ys : List Char) :
    parseHex (xs ++ ys) = parseHex xs * 16 ^ ys.length + parseHex ys := by
  rw [parseHex, parseHexAux_append, parseHexAux_acc, parseHex, parseHex]

theorem hexVal_hexDigitChar {n : Nat} (h : n < 16) :
    hexVal (hexDigitChar n) = n := by
  interval_cases n <;> decide

theorem parseHex_toHexAux (fuel : Nat) : ∀ n : Nat, n < fuel →
    parseHex (toHexAux fuel n) = n := by
  induction fuel with
  | zero => omega
  | succ fuel ih =>
    intro n hn
    rw [toHexAux]
    split
    · next h =>
      simp [parseHex, parseHexAux, hexVal_hexDigitChar h]
    · next h =>
      rw [parseHex_append]
      have hd : n / 16 < n := Nat.div_lt_self (by omega) (by omega)
      rw [ih (n / 16) (by omega)]
      simp [parseHex, parseHexAux, hexVal_hexDigitChar (Nat.mod_lt n (by omega))]
      omega

theorem parseHex_toHex (n : Nat) : parseHex (toHex n) = n :=
  parseHex_toHexAux (n + 1) n (by omega)

theorem getterCode_eq (i : Nat) : getterCode i = i * 256 + 0x0f := by
  rw [getterCode, parseHex_append, parseHex_toHex]
  rfl

theorem setterCode_eq (i : Nat) : setterCode i = i * 256 + 0x1f := by
  rw [setterCode, parseHex_append, parseHex_toHex]
  rfl

theorem methodCode_eq (i : Nat) : methodCode i = i * 256 + 0x0c := by
  rw [methodCode, parseHex_append, parseHex_toHex]
  rfl

theorem mul_256_lor {a b : Nat} (hb : b < 256) : a * 256 ||| b = a * 256 + b := by
  have h := @Nat.mul_add_lt_is_or 8 b (by omega) a
  have h2 : 2 ^ 8 * a = a * 256 := by ring
  rw [h2] at h
  exact h.symm

theorem shiftLeft8_eq (i : Nat) : i <<< 8 = i * 256 := by
  rw [Nat.shiftLeft_eq]

theorem shiftLeft8_lor_eq (i m : Nat) (hm : m < 256) : i <<< 8 ||| m = i * 256 + m := by
  rw [shiftLeft8_eq, mul_256_lor hm]

/-- C3: within one struct descriptor, the getter code of field index i is
(i<<8)|0x0f, the setter code is (i<<8)|0x1f, the method code of method
index k is (k<<8)|0x0c, and the three code families are pairwise disjoint:
no getter code equals a setter or method code, and no setter code equals a
method code, for any pair of indices. -/
theorem struct_member_code_families (i j : Nat) :
    getterCode i = i <<< 8 ||| 0x0f ∧
    setterCode i = i <<< 8 ||| 0x1f ∧
    methodCode i = i <<< 8 ||| 0x0c ∧
    getterCode i ≠ setterCode j ∧
    getterCode i ≠ methodCode j ∧
    setterCode i ≠ methodCode j := by
  refine ⟨?_, ?_, ?_, ?_, ?_, ?_⟩
  · rw [getterCode_eq, shiftLeft8_lor_eq i 0x0f (by norm_num)]
  · rw [setterCode_eq, shiftLeft8_lor_eq i 0x1f (by norm_num)]
  · rw [methodCode_eq, shiftLeft8_lor_eq i 0x0c (by norm_num)]
  · rw [getterCode_eq, setterCode_eq]; omega
  · rw [getterCode_eq, methodCode_eq]; omega
  · rw [setterCode_eq, methodCode_eq]; omega

theorem structDescriptor_eq (p t : String) :
    structDescriptor p t = "go." ++ p ++ "." ++ t := by
  apply String.ext
  simp [structDescriptor, sprintf, sprintfAux]

/-- C6 counterexample: for the testpkg struct S, both halves emit the
descriptor "go.testpkg.S", which is not the package name joined to the
type name as "testpkg.S". -/
theorem struct_descriptor_counterexample :
    structDescriptor "testpkg" "S" = "go.testpkg.S" ∧
    proxyS_Descriptor = "go.testpkg.S" ∧
    ("go.testpkg.S" : String) ≠ "testpkg.S" := by
  refine ⟨by decide, rfl, by decide⟩

/-- C6 (amended): for every struct member, the CallSite descriptor emitted
by both halves is exactly "go." followed by the package name, a dot, and
the type name — every call site genStructM assigns carries that
descriptor, and the Go half's registered descriptor for testpkg.S is the
same string. -/
theorem struct_descriptor_amended :
    (∀ pkgName tyName : String,
      structDescriptor pkgName tyName = "go." ++ pkgName ++ "." ++ tyName) ∧
    (∀ (pkgName tyName : String) (info : TypeNameInfo),
      ∀ cs ∈ structSites pkgName tyName info,
        cs.descriptor = structDescriptor pkgName tyName) ∧
    proxyS_Descriptor = structDescriptor "testpkg" "S" := by
  refine ⟨structDescriptor_eq, ?_, by decide⟩
  intro pkgName tyName info cs hcs
  simp only [structSites, List.mem_append, List.mem_flatMap, List.mem_map,
    List.mem_range] at hcs
  rcases hcs with ⟨i, _, hmem⟩ | ⟨i, _, hmem⟩
  · simp only [List.mem_cons, List.mem_singleton] at hmem
    rcases hmem with h | h | h
    · rw [h]
    · rw [h]
    · cases h
  · rw [← hmem]

/-- C6 amended witness: the membership conjunct applied at the S.X getter
site of the testpkg model. -/
theorem struct_descriptor_amended_witness :
    (⟨"go.testpkg.S", 0x00f, "_GO_testpkg_S_FIELD_X_GET_"⟩ : CallSite).descriptor
      = structDescriptor "testpkg" "S" :=
  struct_descriptor_amended.2.1 "testpkg" "S" testpkgS
    ⟨"go.testpkg.S", 0x00f, "_GO_testpkg_S_FIELD_X_GET_"⟩ (by decide)

/-- C4: funcSummary classifies by result count: three or more results are
rejected with the too-many-results diagnostic; exactly two results whose
second is not the error type are rejected with the result-not-error
diagnostic; a sole result of the error type is accepted under the
boolean-success convention — the summary returns BOOL (a success flag),
does not return a value, and its only result parameter is the failure
channel. -/
theorem funcSummary_result_classification (g : GenCtx) (f : GoFunc) :
    (3 ≤ f.results.length → funcSummaryCore g f = (none, [.tooManyResults f.name])) ∧
    (∀ r1 r2, f.results = [r1, r2] → isErrorType r2.typ = false →
      funcSummaryCore g f = (none, [.resultNotError f.name])) ∧
    (∀ r, f.results = [r] → isErrorType r.typ = true →
      ∃ s, funcSummaryCore g f = (some s, []) ∧ s.ret = "BOOL" ∧
        s.returnsVal = false ∧ s.retParams = [⟨r.typ, "error"⟩]) := by
  refine ⟨?_, ?_, ?_⟩
  · intro h
    rcases hres : f.results with _ | ⟨a, _ | ⟨b, _ | ⟨c, rest⟩⟩⟩ <;>
      simp [hres] at h ⊢ <;> simp [funcSummaryCore, hres]
  · intro r1 r2 hres h2
    simp [funcSummaryCore, hres, h2]
  · intro r hres h1
    refine ⟨⟨f.name, "BOOL",
      (List.range f.params.length).map
        (fun i => ParamInfo.mk (f.params.getD i ⟨"", .otherType⟩).typ (paramName f.params i)),
      [⟨r.typ, "error"⟩]⟩, ?_, rfl, ?_, rfl⟩
    · simp [funcSummaryCore, hres, h1]
    · simp [FuncSummary.returnsVal, h1]

/-- C4 witness: the three classification arms at concrete declarations. -/
theorem funcSummary_result_classification_witness :
    funcSummaryCore (mkGenCtx "testpkg")
        ⟨"Three", [], [⟨"", .basic .int⟩, ⟨"", .basic .int⟩, ⟨"", .basic .int⟩]⟩
      = (none, [.tooManyResults "Three"]) ∧
    funcSummaryCore (mkGenCtx "testpkg")
        ⟨"Two", [], [⟨"", .basic .int⟩, ⟨"", .basic .int⟩]⟩
      = (none, [.resultNotError "Two"]) ∧
    ∃ s, funcSummaryCore (mkGenCtx "testpkg") ⟨"One", [], [⟨"", .errorType⟩]⟩
        = (some s, []) ∧ s.ret = "BOOL" ∧ s.returnsVal = false ∧
        s.retParams = [⟨.errorType, "error"⟩] := by
  refine ⟨(funcSummary_result_classification _ _).1 (by decide),
    (funcSummary_result_classification _ _).2.1 ⟨"", .basic .int⟩ ⟨"", .basic .int⟩ rfl (by decide),
    (funcSummary_result_classification _ _).2.2 ⟨"", .errorType⟩ rfl (by decide)⟩

/-- C5 counterexample: a function with exactly two results whose second is
not the error type is rejected with the result-not-error diagnostic
("second result value must be of type error"), not the too-many-results
diagnostic the claim names. -/
theorem two_results_not_error_counterexample :
    funcSummaryCore (mkGenCtx "testpkg")
        ⟨"TwoInts", [], [⟨"", .basic .int⟩, ⟨"", .basic .int⟩]⟩
      = (none, [.resultNotError "TwoInts"]) ∧
    Diag.resultNotError "TwoInts" ≠ Diag.tooManyResults "TwoInts" := by
  refine ⟨by decide, by decide⟩

/-- C5 (amended): for every function with exactly two results whose second
is not the error type, normalization fails with the result-not-error
diagnostic (ResultNotError) and the declaration is skipped (the summary is
nil). -/
theorem two_results_not_error_rejected (g : GenCtx) (f : GoFunc) (r1 r2 : Param)
    (hres : f.results = [r1, r2]) (h2 : isErrorType r2.typ = false) :
    funcSummaryCore g f = (none, [.resultNotError f.name]) ∧
    (funcSummaryCore g f).1 = none := by
  constructor
  · simp [funcSummaryCore, hres, h2]
  · simp [funcSummaryCore, hres, h2]

/-- C5 amended witness. -/
theorem two_results_not_error_rejected_witness :
    funcSummaryCore (mkGenCtx "testpkg")
        ⟨"TwoStrings", [], [⟨"", .basic .string⟩, ⟨"", .basic .string⟩]⟩
      = (none, [.resultNotError "TwoStrings"]) :=
  (two_results_not_error_rejected (mkGenCtx "testpkg")
    ⟨"TwoStrings", [], [⟨"", .basic .string⟩, ⟨"", .basic .string⟩]⟩
    ⟨"", .basic .string⟩ ⟨"", .basic .string⟩ rfl (by decide)).1

theorem freeFuncSites_codes (pkgName : String) (funcs : List GoFunc) :
    (freeFuncSites pkgName funcs).map (·.code) = List.range' 1 funcs.length := by
  rw [freeFuncSites, List.map_map, List.range'_eq_map_range]
  apply List.map_congr_left
  intro i _
  simp [Nat.add_comm]

/-- C2: free exported package-level functions receive sequential codes
1, 2, ... in the package's declared exported order, all under the
descriptor equal to the package name; for the testpkg model, Sum is the
9th exported function and receives code 9 under descriptor "testpkg",
matching the Go half's registration. -/
theorem free_function_code_assignment :
    (∀ (pkgName : String) (funcs : List GoFunc),
      (freeFuncSites pkgName funcs).map (·.code) = List.range' 1 funcs.length ∧
      ∀ cs ∈ freeFuncSites pkgName funcs, cs.descriptor = pkgName) ∧
    (initFuncs testpkg).length = 9 ∧
    ((initFuncs testpkg).getD 8 ⟨"", [], []⟩).name = "Sum" ∧
    (freeFuncSites "testpkg" (initFuncs testpkg)).getD 8 ⟨"", 0, ""⟩
      = ⟨"testpkg", 9, "_CALL_Sum_"⟩ ∧
    (freeFuncSites "testpkg" (initFuncs testpkg)).map (fun c => (c.descriptor, c.code))
      = goTestpkgFreeRegs.map (fun r => (r.1, r.2.1)) ∧
    (freeFuncSites "testpkg" (initFuncs testpkg)).map (fun c => c.surface)
      = goTestpkgFreeRegs.map (fun r => "_CALL_" ++ r.2.2 ++ "_") := by
  refine ⟨?_, by decide, by decide, by decide, by decide, by decide⟩
  intro pkgName funcs
  refine ⟨freeFuncSites_codes pkgName funcs, ?_⟩
  intro cs hcs
  simp only [freeFuncSites, List.mem_map, List.mem_range] at hcs
  obtain ⟨i, _, h⟩ := hcs
  rw [← h]

/-- C2 witness: the universally quantified part applied to the testpkg
free-function list, and its membership conjunct at the Sum site. -/
theorem free_function_code_assignment_witness :
    (freeFuncSites "testpkg" (initFuncs testpkg)).map (·.code)
      = List.range' 1 (initFuncs testpkg).length ∧
    (⟨"testpkg", 9, "_CALL_Sum_"⟩ : CallSite).descriptor = "testpkg" :=
  ⟨(free_function_code_assignment.1 "testpkg" (initFuncs testpkg)).1,
   (free_function_code_assignment.1 "testpkg" (initFuncs testpkg)).2
     ⟨"testpkg", 9, "_CALL_Sum_"⟩ (by decide)⟩

theorem structSites_codes (pkgName tyName : String) (info : TypeNameInfo) :
    (structSites pkgName tyName info).map (·.code)
      = ((List.range (exportedFields info).length).flatMap
          fun i => [getterCode i, setterCode i])
        ++ (List.range (exportedMethods info).length).map methodCode := by
  rw [structSites, List.map_append, List.map_flatMap, List.map_map]
  rfl

theorem codes_eq_skeleton (p : Package) :
    (genMCallSites p).map (·.code) = codesOfSkeleton (skeleton p) := by
  rw [genMCallSites, codesOfSkeleton, List.map_append, skeleton]
  congr 1
  · rw [freeFuncSites_codes, List.range'_eq_map_range]
    apply List.map_congr_left
    intro i _
    omega
  · rw [List.map_flatMap, List.flatMap_map]
    apply List.flatMap_congr
    intro ni _
    cases h : ni.2.underlying <;> simp [h, structSites_codes]

/-- C1: code assignment is deterministic — two generator values over the
same package (regardless of accumulated run state) assign identical call
sites, and the code sequence is a function of the declaration order and
kind skeleton alone: any two packages with the same skeleton receive the
same code sequence. -/
theorem code_assignment_deterministic :
    (∀ g1 g2 : ObjcGen, g1.pkg = g2.pkg → g1.callSites = g2.callSites) ∧
    (∀ p1 p2 : Package, skeleton p1 = skeleton p2 →
      (genMCallSites p1).map (·.code) = (genMCallSites p2).map (·.code)) := by
  constructor
  · intro g1 g2 h
    rw [ObjcGen.callSites, ObjcGen.callSites, h]
  · intro p1 p2 h
    rw [codes_eq_skeleton, codes_eq_skeleton, h]

/-- C1 witness: two generator values over the testpkg package with
different accumulated error state assign identical call sites, and the
skeleton part applied to testpkg itself. -/
theorem code_assignment_deterministic_witness :
    (ObjcGen.mk testpkg []).callSites
      = (ObjcGen.mk testpkg [.tooManyResults "X"]).callSites ∧
    (genMCallSites testpkg).map (·.code) = (genMCallSites testpkg).map (·.code) :=
  ⟨code_assignment_deterministic.1 (ObjcGen.mk testpkg [])
      (ObjcGen.mk testpkg [.tooManyResults "X"]) rfl,
   code_assignment_deterministic.2 testpkg testpkg rfl⟩

theorem genMNameStep_out (g : GenCtx) (pkgName : String) (st : GenState)
    (ni : String × TypeNameInfo) :
    (genMNameStep g pkgName st ni).out
      = st.out ++ (match ni.2.underlying with
                   | .structU => structSites pkgName ni.1 ni.2
                   | _ => []) := by
  cases h : ni.2.underlying <;> simp [genMNameStep, h]

theorem foldl_nameStep_out (g : GenCtx) (pkgName : String)
    (l : List (String × TypeNameInfo)) : ∀ st : GenState,
    (l.foldl (genMNameStep g pkgName) st).out
      = st.out ++ l.flatMap (fun ni =>
          match ni.2.underlying with
          | .structU => structSites pkgName ni.1 ni.2
          | _ => []) := by
  induction l with
  | nil => simp
  | cons a l ih =>
    intro st
    rw [List.foldl_cons, ih, List.flatMap_cons, genMNameStep_out, List.append_assoc]

theorem foldl_funcStep_out (g : GenCtx) (l : List GoFunc) : ∀ st : GenState,
    (l.foldl (fun st f => GenState.mk st.out (st.err ++ genFuncMDiags g f)) st).out
      = st.out := by
  induction l with
  | nil => intro st; rfl
  | cons a l ih => intro st; rw [List.foldl_cons, ih]

theorem genMRun_out (p : Package) : (genMRun p).out = genMCallSites p := by
  rw [genMRun, genMCallSites]
  rw [foldl_funcStep_out, foldl_nameStep_out]

/-- C8: the type mapper records a diagnostic for every unsupported shape
(slice of non-byte element, map, pointer to a non-named type, named type
from another package) and every diagnostic it records is of the
unsupported-type class; emission continues past diagnostics — a genM run
emits exactly the call sites of the full declaration model regardless of
the accumulated error list — and genM as a whole returns failure exactly
when the collected diagnostic list is non-empty at the end. -/
theorem unsupported_type_diagnostics :
    (∀ (g : GenCtx) (elem : Typ), (objcType g elem).1 ≠ "byte" →
        (objcType g (.slice elem)).2 ≠ []) ∧
    (∀ (g : GenCtx) (k v : Typ), (objcType g (.mapType k v)).2 ≠ []) ∧
    (∀ (g : GenCtx) (elem : Typ), elem.isNamed = false →
        (objcType g (.pointer elem)).2 ≠ []) ∧
    (∀ (g : GenCtx) (pk n : String) (u : UnderlyingKind), pk ≠ g.pkgName →
        (objcType g (.named pk n u)).2 ≠ []) ∧
    (∀ (g : GenCtx) (t : Typ), ∀ d ∈ (objcType g t).2, d.isUnsupported = true) ∧
    (∀ p : Package, (genMRun p).out = genMCallSites p) ∧
    (∀ p : Package, (∃ e, genM p = .error e) ↔ (genMRun p).err ≠ []) := by
  refine ⟨?_, ?_, ?_, ?_, ?_, genMRun_out, ?_⟩
  · intro g elem h
    simp only [objcType]
    split
    · next hb => exact absurd hb h
    · simp
  · intro g k v
    simp [objcType]
  · intro g elem h
    cases elem <;> simp [objcType] <;> simp [Typ.isNamed] at h
  · intro g pk n u h
    simp [objcType, h]
  · intro g t
    induction t with
    | basic k => cases k <;> simp [objcType, Diag.isUnsupported]
    | errorType => simp [objcType]
    | slice elem ih =>
      intro d hd
      simp only [objcType] at hd
      split at hd
      · exact ih d hd
      · rcases List.mem_append.mp hd with h | h
        · exact ih d h
        · simp at h; rw [h]; rfl
    | pointer elem ih =>
      intro d hd
      cases elem <;> simp only [objcType] at hd <;>
        first
          | (exact ih d hd)
          | (simp at hd; rw [hd]; rfl)
    | named pk n u =>
      intro d hd
      simp only [objcType] at hd
      split at hd
      · simp at hd; rw [hd]; rfl
      · cases u <;> simp at hd <;> rw [hd] <;> rfl
    | mapType k v ih1 ih2 =>
      intro d hd
      simp [objcType] at hd; rw [hd]; rfl
    | otherType =>
      intro d hd
      simp [objcType] at hd; rw [hd]; rfl
  · intro p
    rw [genM]
    rcases h : (genMRun p).err with _ | ⟨e, es⟩ <;> simp [h]

/-- C8 witness: the unsupported-shape conjuncts at concrete types, and the
failure iff at the model package with one map-typed declaration. -/
theorem unsupported_type_diagnostics_witness :
    (objcType (mkGenCtx "testpkg") (.slice (.basic .int))).2 ≠ [] ∧
    (objcType (mkGenCtx "testpkg") (.pointer (.basic .int))).2 ≠ [] ∧
    (objcType (mkGenCtx "testpkg") (.named "other" "T" .structU)).2 ≠ [] ∧
    (∃ e, genM badpkg = .error e) := by
  refine ⟨unsupported_type_diagnostics.1 (mkGenCtx "testpkg") (.basic .int) (by decide),
    unsupported_type_diagnostics.2.2.1 (mkGenCtx "testpkg") (.basic .int) (by decide),
    unsupported_type_diagnostics.2.2.2.1 (mkGenCtx "testpkg") "other" "T" .structU (by decide),
    (unsupported_type_diagnostics.2.2.2.2.2.2 badpkg).mpr (by decide)⟩

/-- C9: a caller stub decoding an ObjectRef result first consults the
wrapper attached to the read reference: a cached wrapper is returned
unchanged (no allocation), only a missing one triggers allocation of a
fresh wrapper which is bound to the handle, so decoding the same handle
twice yields the identical wrapper; and the value-returning decode path of
the stub resolves its reference exactly this way. -/
theorem ref_decode_get_or_create :
    (∀ (reg : RefRegistry) (h w : Nat), reg.lookup h = some w →
      readRefWrapper reg h = (w, reg)) ∧
    (∀ (reg : RefRegistry) (h : Nat), reg.lookup h = none →
      (readRefWrapper reg h).1 = reg.fresh ∧
      ((readRefWrapper reg h).2).lookup h = some reg.fresh) ∧
    (∀ (reg : RefRegistry) (h : Nat),
      (readRefWrapper (readRefWrapper reg h).2 h).1 = (readRefWrapper reg h).1) ∧
    (∀ (reg : RefRegistry) (h : Nat) (rest : List WireVal),
      execStubReturnRef (.ref h :: rest) reg
        = ((readRefWrapper reg h).1, rest, (readRefWrapper reg h).2)) := by
  refine ⟨?_, ?_, ?_, ?_⟩
  · intro reg h w hw
    rw [readRefWrapper, hw]
  · intro reg h hw
    rw [readRefWrapper, hw]
    refine ⟨rfl, ?_⟩
    simp [RefRegistry.lookup, List.find?]
  · intro reg h
    rcases hw : reg.lookup h with _ | w
    · have he : readRefWrapper reg h
          = (reg.fresh, ⟨(h, reg.fresh) :: reg.cache, reg.fresh + 1⟩) := by
        rw [readRefWrapper, hw]
      rw [he, readRefWrapper]
      simp [RefRegistry.lookup, List.find?]
    · have he : readRefWrapper reg h = (w, reg) := by
        rw [readRefWrapper, hw]
      rw [he, readRefWrapper, hw]
  · intro reg h rest
    rfl

/-- C9 witness: a handle decoded twice against an empty registry yields
one and the same wrapper, and a cache hit returns the cached wrapper with
the registry unchanged. -/
theorem ref_decode_get_or_create_witness :
    readRefWrapper ⟨[(7, 3)], 4⟩ 7 = (3, ⟨[(7, 3)], 4⟩) ∧
    (readRefWrapper (readRefWrapper ⟨[], 0⟩ 7).2 7).1 = (readRefWrapper ⟨[], 0⟩ 7).1 :=
  ⟨ref_decode_get_or_create.1 ⟨[(7, 3)], 4⟩ 7 3 (by decide),
   ref_decode_get_or_create.2.2.1 ⟨[], 0⟩ 7⟩

theorem execSlot_buf (sl : RetSlot) (ptr : Option Nat) (st : StubState) :
    (execSlot sl ptr st).buf = st.buf.tail := by
  rcases st with ⟨buf, reg, writes, errMsg⟩
  cases sl <;> cases ptr <;> cases buf <;>
    simp [execSlot, StubState.pop] <;> split <;> rfl

theorem execSlot_writes_mem (sl : RetSlot) (ptr : Option Nat) (st : StubState)
    (l : Nat) (v : ObjCVal) :
    (l, v) ∈ (execSlot sl ptr st).writes → (l, v) ∈ st.writes ∨ ptr = some l := by
  rcases st with ⟨buf, reg, writes, errMsg⟩
  cases sl <;> rcases ptr with _ | p <;> rcases buf with _ | ⟨w, rest⟩ <;>
    simp only [execSlot, StubState.pop] <;>
    (try split) <;>
    intro h <;>
    first
      | exact Or.inl h
      | (rcases List.mem_append.mp h with h2 | h2
         · exact Or.inl h2
         · simp at h2
           right
           rw [h2.1])

theorem foldl_execSlot_buf (slots : List (RetSlot × Option Nat)) :
    ∀ (st : StubState),
    (slots.foldl (fun st s => execSlot s.1 s.2 st) st).buf
      = st.buf.drop slots.length := by
  induction slots with
  | nil => intro st; rfl
  | cons s rest ih =>
    intro st
    rw [List.foldl_cons, ih, execSlot_buf, List.length_cons, ← List.drop_one,
      List.drop_drop]
    rw [Nat.add_comm]

theorem foldl_execSlot_writes (slots : List (RetSlot × Option Nat)) :
    ∀ (st : StubState) (l : Nat) (v : ObjCVal),
    (l, v) ∈ (slots.foldl (fun st s => execSlot s.1 s.2 st) st).writes →
    (l, v) ∈ st.writes ∨ ∃ sl, (sl, some l) ∈ slots := by
  induction slots with
  | nil => intro st l v h; exact Or.inl h
  | cons s rest ih =>
    intro st l v h
    rw [List.foldl_cons] at h
    rcases ih _ l v h with h2 | ⟨sl, hsl⟩
    · rcases execSlot_writes_mem s.1 s.2 st l v h2 with h3 | h3
      · exact Or.inl h3
      · right
        refine ⟨s.1, ?_⟩
        rw [← h3, Prod.mk.eta]
        exact List.mem_cons_self s rest
    · exact Or.inr ⟨sl, List.mem_cons_of_mem s hsl⟩

/-- C10: in the generated out-parameter decode path, the response buffer
is decoded in full (one read per result slot) regardless of the
out-parameter pointers, both buffers are freed unconditionally, and every
store goes through a pointer that was passed non-NULL — with all
out-parameter pointers NULL the stub performs no store at all. -/
theorem out_param_null_safety (slots : List (RetSlot × Option Nat))
    (buf : List WireVal) (reg : RefRegistry) :
    (execStubOutParams slots buf reg).remaining = buf.drop slots.length ∧
    (execStubOutParams slots buf reg).freedIn = true ∧
    (execStubOutParams slots buf reg).freedOut = true ∧
    (∀ l v, (l, v) ∈ (execStubOutParams slots buf reg).writes →
      ∃ sl, (sl, some l) ∈ slots) ∧
    ((∀ s ∈ slots, s.2 = none) → (execStubOutParams slots buf reg).writes = []) := by
  refine ⟨?_, rfl, rfl, ?_, ?_⟩
  · rw [execStubOutParams]
    exact foldl_execSlot_buf slots _
  · intro l v h
    rw [execStubOutParams] at h
    rcases foldl_execSlot_writes slots _ l v h with h2 | h2
    · simp at h2
    · exact h2
  · intro hnone
    rcases hw : (execStubOutParams slots buf reg).writes with _ | ⟨⟨l, v⟩, rest⟩
    · rfl
    · exfalso
      have hmem : (l, v) ∈ (execStubOutParams slots buf reg).writes := by
        rw [hw]; exact List.mem_cons_self _ _
      rw [execStubOutParams] at hmem
      rcases foldl_execSlot_writes slots _ l v hmem with h2 | ⟨sl, hsl⟩
      · simp at h2
      · have := hnone (sl, some l) hsl
        simp at this

/-- C10 witness: a stub with one value and one error slot, both pointers
NULL, on a two-value response: the whole response is consumed, both
buffers are freed, and nothing is stored. -/
theorem out_param_null_safety_witness :
    (execStubOutParams [(.valSlot, none), (.errorSlot, none)]
        [.num 7, .str "boom"] ⟨[], 0⟩).remaining
      = ([.num 7, .str "boom"] : List WireVal).drop 2 ∧
    (execStubOutParams [(.valSlot, none), (.errorSlot, none)]
        [.num 7, .str "boom"] ⟨[], 0⟩).writes = [] := by
  refine ⟨(out_param_null_safety _ _ _).1, ?_⟩
  exact (out_param_null_safety [(.valSlot, none), (.errorSlot, none)]
    [.num 7, .str "boom"] ⟨[], 0⟩).2.2.2.2 (by decide)

/-- C7 counterexample: a callee that fails with an error whose textual
message is empty.  The dispatcher writes an empty failure string even
though an error was returned — so the wire string is not empty exactly
when the callee returned no error — and the caller stub, reading that
string, reports success. -/
theorem failure_channel_counterexample :
    errWireString (some ⟨""⟩) = "" ∧
    some (⟨""⟩ : GoError) ≠ none ∧
    proxy_ReturnsError (fun _ => ("v", some ⟨""⟩)) [.bool true]
      = [.str "v", .str ""] ∧
    (execStubOutParams [(.valSlot, none), (.errorSlot, none)]
        (proxy_ReturnsError (fun _ => ("v", some ⟨""⟩)) [.bool true]) ⟨[], 0⟩).success
      = some true := by
  refine ⟨rfl, by decide, rfl, by decide⟩

/-- C7 (amended): for a boolean-success CallSite the dispatcher always
writes the value result and then the failure string — empty when the
callee returned no error, and equal to the error's message on failure
(hence empty also for an error with an empty message); the caller stub
reports success exactly when that string has length zero, and constructs a
runtime error value carrying the message whenever the message is non-empty
and the error out-parameter pointer is non-NULL. -/
theorem failure_channel_amended (value : WireVal) (err : Option GoError)
    (pv pe : Option Nat) (reg : RefRegistry) :
    dispatchBoolSuccess value err = [value, .str (errWireString err)] ∧
    (err = none → errWireString err = "") ∧
    (∀ e, err = some e → errWireString err = e.msg) ∧
    (execStubOutParams [(.valSlot, pv), (.errorSlot, pe)]
        (dispatchBoolSuccess value err) reg).success
      = some ((errWireString err).length == 0) ∧
    (∀ l, pe = some l → (errWireString err).length ≠ 0 →
      (l, .nserror (errWireString err)) ∈
        (execStubOutParams [(.valSlot, pv), (.errorSlot, pe)]
          (dispatchBoolSuccess value err) reg).writes) := by
  refine ⟨rfl, ?_, ?_, ?_, ?_⟩
  · intro h; rw [h]; rfl
  · intro e h; rw [h]; rfl
  · rcases pv with _ | l0 <;> rcases pe with _ | l1 <;>
      simp only [execStubOutParams, dispatchBoolSuccess, List.foldl_cons,
        List.foldl_nil, execSlot, StubState.pop] <;>
      (try split) <;> simp [WireVal.asStr]
  · intro l hpe hne
    subst hpe
    rcases pv with _ | l0 <;>
      simp [execStubOutParams, dispatchBoolSuccess, execSlot, StubState.pop,
        WireVal.asStr, hne]

/-- C7 amended witness: the success-path and failure-path behaviour at the
ReturnsError shape with concrete arguments — failure with message "boom"
through a non-NULL error pointer stores the constructed error value. -/
theorem failure_channel_amended_witness :
    (execStubOutParams [(.valSlot, some 1), (.errorSlot, some 2)]
        (dispatchBoolSuccess (.str "ok") none) ⟨[], 0⟩).success
      = some (("" : String).length == 0) ∧
    (2, .nserror (errWireString (some ⟨"boom"⟩))) ∈
      (execStubOutParams [(.valSlot, some 1), (.errorSlot, some 2)]
        (dispatchBoolSuccess (.str "") (some ⟨"boom"⟩)) ⟨[], 0⟩).writes :=
  ⟨(failure_channel_amended (.str "ok") none (some 1) (some 2) ⟨[], 0⟩).2.2.2.1,
   (failure_channel_amended (.str "") (some ⟨"boom"⟩) (some 1) (some 2)
     ⟨[], 0⟩).2.2.2.2 2 rfl (by decide)⟩

end Gobind
